import Mathlib

/-!
Verification of the L_BFGS_B optimizer adapter
(qiskit/aqua/components/optimizers/l_bfgs_b.py).

The adapter sits between a generic Optimizer base class (external
collaborator, not part of the given sources) and the external solver
routine scipy.optimize.fmin_l_bfgs_b (external library). Everything the
adapter itself does is embedded faithfully from the source file; the
missing collaborators (schema validation, the batch-mode flag, the
numerical-gradient helpers, the request-shape validation of the base
optimize method, and the solver call itself) are modelled from the
specification, each marked as such in its doc comment. The solver is a
parameter of the embedded optimize, and optimize additionally returns the
list of solver invocations it performed together with the adapter state
after the call, so that theorems can speak about what was passed to the
solver and about state preservation.
-/

/-- Python runtime values that can appear as option values: integers,
floats (modelled as rationals), strings, booleans, and arbitrary other
objects (such as the self reference appearing in locals). -/
inductive PyVal where
  | int (i : Int)
  | float (q : ℚ)
  | str (s : String)
  | bool (b : Bool)
  | obj
deriving DecidableEq, Repr

/-- Conversion of a numeric PyVal to a rational; non-numeric values map
to 0 (they never reach arithmetic in validated configurations). -/
def PyVal.toRat : PyVal → ℚ
  | .int i => (i : ℚ)
  | .float q => q
  | _ => 0

/-- Types that can be declared for a property in the input schema of the
source CONFIGURATION: integer and number. -/
inductive SchemaType where
  | integer
  | number
deriving DecidableEq, Repr

/-- Modelled from the spec: JSON-schema type checking as used by the base
collaborator validation. An integer property accepts only integers; a
number property accepts integers and floats; booleans, strings and other
objects match neither declared type. -/
def typeMatches : SchemaType → PyVal → Bool
  | .integer, .int _ => true
  | .number, .int _ => true
  | .number, .float _ => true
  | _, _ => false

/-- One property entry of the input schema: a declared type and a
declared default. -/
structure SchemaProp where
  type : SchemaType
  default : PyVal
deriving DecidableEq, Repr

/-- The properties of CONFIGURATION.input_schema from the source:
maxfun (integer, 1000), maxiter (integer, 15000), factr (integer, 10),
iprint (integer, -1), epsilon (number, 1e-08). -/
def CONFIGURATION_input_schema_properties : List (String × SchemaProp) :=
  [("maxfun", ⟨SchemaType.integer, PyVal.int 1000⟩),
   ("maxiter", ⟨SchemaType.integer, PyVal.int 15000⟩),
   ("factr", ⟨SchemaType.integer, PyVal.int 10⟩),
   ("iprint", ⟨SchemaType.integer, PyVal.int (-1)⟩),
   ("epsilon", ⟨SchemaType.number, PyVal.float (1 / 100000000)⟩)]

/-- The options list of CONFIGURATION from the source. -/
def CONFIGURATION_options : List String :=
  ["maxfun", "maxiter", "factr", "iprint", "epsilon"]

/-- Modelled from the spec: the base collaborator validation routine
(Optimizer.validate, not part of the given sources). It checks each
provided option value against the declared type of that option in the
input schema and rejects any name not declared there (the schema sets
additionalProperties to false). -/
def Optimizer.validate (opts : List (String × PyVal)) : Bool :=
  opts.all (fun kv =>
    match CONFIGURATION_input_schema_properties.lookup kv.1 with
    | some p => typeMatches p.type kv.2
    | none => false)

/-- The adapter state: the stored options dictionary, filled at
construction from the constructor locals filtered by the declared
options list. -/
structure L_BFGS_B where
  _options : List (String × PyVal)
deriving DecidableEq, Repr

/-- The constructor body from the source: validate(locals()) and then
store every local whose name is in the configured options list. The
locals of the Python constructor are the self reference and the five
named parameters; the self reference is excluded from validation by the
base collaborator and is filtered out of the stored options by the name
filter of the storage loop. -/
def L_BFGS_B.init (maxfun maxiter factr iprint epsilon : PyVal) :
    Option L_BFGS_B :=
  let loc : List (String × PyVal) :=
    [("self", PyVal.obj), ("maxfun", maxfun), ("maxiter", maxiter),
     ("factr", factr), ("iprint", iprint), ("epsilon", epsilon)]
  if Optimizer.validate (loc.filter (fun kv => kv.1 != "self")) then
    some ⟨loc.filter (fun kv => CONFIGURATION_options.contains kv.1)⟩
  else none

/-- Look up a name in a keyword-argument list, falling back to a
default, mirroring a Python keyword parameter with a default value. -/
def getKw (kwargs : List (String × PyVal)) (k : String) (d : PyVal) : PyVal :=
  (kwargs.lookup k).getD d

/-- Modelled from the spec: calling the constructor with keyword
arguments. A keyword whose name is not among the five declared option
names fails construction (the constructor signature has exactly those
five parameters and the schema rejects additional properties); otherwise
each missing option takes the default of the constructor signature from
the source: maxfun=1000, maxiter=15000, factr=10, iprint=-1,
epsilon=1e-08. -/
def L_BFGS_B.initKw (kwargs : List (String × PyVal)) : Option L_BFGS_B :=
  if kwargs.all (fun kv => CONFIGURATION_options.contains kv.1) then
    L_BFGS_B.init (getKw kwargs "maxfun" (PyVal.int 1000))
      (getKw kwargs "maxiter" (PyVal.int 15000))
      (getKw kwargs "factr" (PyVal.int 10))
      (getKw kwargs "iprint" (PyVal.int (-1)))
      (getKw kwargs "epsilon" (PyVal.float (1 / 100000000)))
  else none

/-- Read a stored option, as self._options[k] does in the source. -/
def L_BFGS_B.getOption (self : L_BFGS_B) (k : String) : PyVal :=
  (self._options.lookup k).getD PyVal.obj

/-- Points are real vectors, modelled over the rationals. -/
abbrev Point := List ℚ

/-- An objective function. -/
abbrev ObjFun := Point → ℚ

/-- A gradient function. -/
abbrev GradFun := Point → Point

/-- Per-variable bounds, each side possibly unbounded. -/
abbrev Bounds := List (Option ℚ × Option ℚ)

/-- Modelled from the spec: the base collaborator helper
Optimizer.gradient_num_diff (not part of the given sources), a
finite-difference gradient estimator that evaluates the objective at a
small perturbation of each coordinate of the centre point with step
epsilon. -/
def Optimizer.gradient_num_diff (x_center : Point) (f : ObjFun)
    (epsilon : ℚ) : Point :=
  (List.range x_center.length).map (fun i =>
    (f (x_center.mapIdx (fun j xj => if j = i then xj + epsilon else xj)) -
      f x_center) / epsilon)

/-- Modelled from the spec: the base collaborator helper
Optimizer.wrap_function (not part of the given sources), which binds
extra arguments to a function and returns a one-argument closure. -/
def Optimizer.wrap_function (function : Point → ObjFun → ℚ → Point)
    (args : ObjFun × ℚ) : GradFun :=
  fun wrapper_args => function wrapper_args args.1 args.2

/-- Modelled from the spec: the request-shape validation performed by the
generic optimize entry point of the base collaborator (not part of the
given sources): an initial point is required for this adapter and must
have length num_vars, and the bounds, when given, must have length
num_vars; failure raises an invalid-request error before any solver call
is made. -/
def Optimizer.optimize_base (num_vars : Nat) (variable_bounds : Option Bounds)
    (initial_point : Option Point) : Except String Unit :=
  match initial_point with
  | none => Except.error "initial point is required for this optimizer"
  | some p =>
    if p.length ≠ num_vars then
      Except.error "initial point does not match the number of variables"
    else
      match variable_bounds with
      | none => Except.ok ()
      | some b =>
        if b.length ≠ num_vars then
          Except.error "variable bounds do not match the number of variables"
        else Except.ok ()

/-- The diagnostic info dictionary returned by the external solver,
holding at least the function-evaluation count (the funcalls field). -/
structure SolverInfo where
  grad : Point
  task : String
  funcalls : Nat
  nit : Nat
  warnflag : Int

/-- The full argument record of one invocation of the external solver
fmin_l_bfgs_b: objective, initial point, bounds, gradient function
(fprime), the internal-approximation flag (approx_grad), and the keyword
tuning options. -/
structure SolverCall where
  func : ObjFun
  x0 : Option Point
  bounds : Option Bounds
  fprime : Option GradFun
  approx_grad : Bool
  kwargs : List (String × PyVal)

/-- The external solver, a parameter of the embedding: it receives the
argument record and either fails or returns the final point, the final
objective value and the diagnostic info. -/
abbrev Solver := SolverCall → Except String (Point × ℚ × SolverInfo)

/-- The argument record the optimize body of the source builds for the
solver: if the gradient function is omitted and batch mode is available,
the numerical-difference gradient bound to the objective and the
configured epsilon option replaces it; approx_grad is set exactly when
the resulting gradient function is still absent; the stored options are
passed through as keyword arguments. -/
def L_BFGS_B.solverCall (self : L_BFGS_B) (batch_mode : Bool)
    (objective_function : ObjFun) (gradient_function : Option GradFun)
    (variable_bounds : Option Bounds) (initial_point : Option Point) :
    SolverCall :=
  let gradient_function :=
    match gradient_function with
    | none =>
      if batch_mode then
        some (Optimizer.wrap_function Optimizer.gradient_num_diff
          (objective_function, (self.getOption "epsilon").toRat))
      else none
    | some g => some g
  { func := objective_function, x0 := initial_point,
    bounds := variable_bounds, fprime := gradient_function,
    approx_grad := gradient_function.isNone, kwargs := self._options }

/-- The optimize method from the source: run the request-shape validation
of the base collaborator, then invoke the solver once with the argument
record built by solverCall and return the final point, the final
objective value and the funcalls field of the diagnostic info. Errors of
the validation and of the solver propagate unchanged. Besides the
result, the embedding returns the list of solver invocations performed
and the adapter state after the call. -/
def L_BFGS_B.optimize (self : L_BFGS_B) (solver : Solver) (batch_mode : Bool)
    (num_vars : Nat) (objective_function : ObjFun)
    (gradient_function : Option GradFun) (variable_bounds : Option Bounds)
    (initial_point : Option Point) :
    Except String (Point × ℚ × Nat) × List SolverCall × L_BFGS_B :=
  match Optimizer.optimize_base num_vars variable_bounds initial_point with
  | Except.error e => (Except.error e, [], self)
  | Except.ok _ =>
    let call := self.solverCall batch_mode objective_function
      gradient_function variable_bounds initial_point
    match solver call with
    | Except.error e => (Except.error e, [call], self)
    | Except.ok (sol, opt, info) =>
      (Except.ok (sol, opt, info.funcalls), [call], self)

/-- A concrete adapter holding the default options, used by witnesses. -/
def dflt : L_BFGS_B :=
  ⟨[("maxfun", PyVal.int 1000), ("maxiter", PyVal.int 15000),
    ("factr", PyVal.int 10), ("iprint", PyVal.int (-1)),
    ("epsilon", PyVal.float (1 / 100000000))]⟩

/-- A concrete constant objective, used by witnesses. -/
def zeroObj : ObjFun := fun _ => 0

/-- A concrete solver that always succeeds, used by witnesses. -/
def okSolver : Solver := fun _ => Except.ok ([0], 0, ⟨[0], "done", 7, 2, 0⟩)

/-- A concrete solver that always fails, used by witnesses. -/
def failSolver : Solver := fun _ => Except.error "numerical failure"

/-- When the request-shape validation succeeds, optimize performs exactly
one solver invocation, with the record built by solverCall. -/
theorem optimize_calls_of_valid (self : L_BFGS_B) (solver : Solver)
    (bm : Bool) (n : Nat) (f : ObjFun) (gf : Option GradFun)
    (vb : Option Bounds) (x0 : Option Point)
    (h : Optimizer.optimize_base n vb x0 = Except.ok ()) :
    (self.optimize solver bm n f gf vb x0).2.1 =
      [self.solverCall bm f gf vb x0] := by
  unfold L_BFGS_B.optimize
  rw [h]
  cases hs : solver (self.solverCall bm f gf vb x0) with
  | error e => simp [hs]
  | ok r => obtain ⟨sol, opt, info⟩ := r; simp [hs]

/-- The approx_grad field of the record built for the solver equals
absence of the fprime field, in every case. -/
theorem solverCall_approx_eq (self : L_BFGS_B) (bm : Bool) (f : ObjFun)
    (gf : Option GradFun) (vb : Option Bounds) (x0 : Option Point) :
    (self.solverCall bm f gf vb x0).approx_grad =
      (self.solverCall bm f gf vb x0).fprime.isNone := by
  cases gf with
  | none => cases bm <;> rfl
  | some g => rfl

/-- C4: construction with no arguments succeeds and the stored
configuration holds exactly the documented defaults maxfun=1000,
maxiter=15000, factr=10, iprint=-1, epsilon=1e-08. -/
theorem initKw_defaults :
    L_BFGS_B.initKw [] =
      some ⟨[("maxfun", PyVal.int 1000), ("maxiter", PyVal.int 15000),
             ("factr", PyVal.int 10), ("iprint", PyVal.int (-1)),
             ("epsilon", PyVal.float (1 / 100000000))]⟩ := by
  rfl

/-- C6: the input schema of the source declares factr with type integer,
so construction with the non-integer non-negative value factr=10.5 is
rejected by schema validation, although the constructor docstring types
factr as a float with typical values such as 1e7 and 10.0. -/
theorem initKw_factr_float_rejected :
    L_BFGS_B.initKw [("factr", PyVal.float (21 / 2))] = none := by
  rfl

/-- C5: for each of the five declared options, construction with a value
not matching its declared schema type fails, and construction with an
option name not among the five declared names fails. -/
theorem initKw_rejects_invalid :
    (∀ v : PyVal, typeMatches SchemaType.integer v = false →
      L_BFGS_B.initKw [("maxfun", v)] = none ∧
      L_BFGS_B.initKw [("maxiter", v)] = none ∧
      L_BFGS_B.initKw [("factr", v)] = none ∧
      L_BFGS_B.initKw [("iprint", v)] = none) ∧
    (∀ v : PyVal, typeMatches SchemaType.number v = false →
      L_BFGS_B.initKw [("epsilon", v)] = none) ∧
    (∀ (k : String) (v : PyVal), CONFIGURATION_options.contains k = false →
      L_BFGS_B.initKw [(k, v)] = none) := by
  refine ⟨fun v h => ?_, fun v h => ?_, fun k v h => ?_⟩
  · cases v <;> simp_all [typeMatches] <;>
      exact ⟨rfl, rfl, rfl, rfl⟩
  · cases v <;> simp_all [typeMatches] <;> rfl
  · have hall : ([(k, v)].all fun kv => CONFIGURATION_options.contains kv.1) = false := by
      simpa using h
    simp only [L_BFGS_B.initKw, hall, Bool.false_eq_true, if_false]

/-- Closed witness for the C5 theorem: a wrongly typed value for an
integer option, a wrongly typed value for the number option, and an
undeclared option name are each rejected. -/
theorem initKw_rejects_invalid_witness :
    L_BFGS_B.initKw [("maxfun", PyVal.str "a")] = none ∧
    L_BFGS_B.initKw [("epsilon", PyVal.str "b")] = none ∧
    L_BFGS_B.initKw [("banana", PyVal.int 1)] = none :=
  ⟨(initKw_rejects_invalid.1 (PyVal.str "a") rfl).1,
   initKw_rejects_invalid.2.1 (PyVal.str "b") rfl,
   initKw_rejects_invalid.2.2 "banana" (PyVal.int 1) rfl⟩

/-- C1: when the gradient function is omitted and batch mode is
available, optimize passes the solver a numerical-difference gradient
function bound to the given objective and the configured epsilon option,
and the internal-approximation flag is not set. -/
theorem optimize_numdiff_gradient_when_batch (self : L_BFGS_B)
    (solver : Solver) (n : Nat) (f : ObjFun) (vb : Option Bounds)
    (x0 : Option Point)
    (h : Optimizer.optimize_base n vb x0 = Except.ok ()) :
    (self.optimize solver true n f none vb x0).2.1 =
      [{ func := f, x0 := x0, bounds := vb,
         fprime := some (Optimizer.wrap_function Optimizer.gradient_num_diff
           (f, (self.getOption "epsilon").toRat)),
         approx_grad := false, kwargs := self._options }] := by
  rw [optimize_calls_of_valid self solver true n f none vb x0 h]
  rfl

/-- Closed witness for the C1 theorem at a concrete adapter, objective,
solver and initial point. -/
theorem optimize_numdiff_gradient_when_batch_witness :
    Optimizer.optimize_base 1 none (some [0]) = Except.ok () ∧
    (dflt.optimize okSolver true 1 zeroObj none none (some [0])).2.1 =
      [{ func := zeroObj, x0 := some [0], bounds := none,
         fprime := some (Optimizer.wrap_function Optimizer.gradient_num_diff
           (zeroObj, (dflt.getOption "epsilon").toRat)),
         approx_grad := false, kwargs := dflt._options }] :=
  ⟨rfl, optimize_numdiff_gradient_when_batch dflt okSolver 1 zeroObj none
    (some [0]) rfl⟩

/-- C2: when the gradient function is omitted and batch mode is
unavailable, optimize passes the solver no gradient function and sets
the internal-approximation flag approx_grad. -/
theorem optimize_internal_approx_when_no_batch (self : L_BFGS_B)
    (solver : Solver) (n : Nat) (f : ObjFun) (vb : Option Bounds)
    (x0 : Option Point)
    (h : Optimizer.optimize_base n vb x0 = Except.ok ()) :
    (self.optimize solver false n f none vb x0).2.1 =
      [{ func := f, x0 := x0, bounds := vb, fprime := none,
         approx_grad := true, kwargs := self._options }] := by
  rw [optimize_calls_of_valid self solver false n f none vb x0 h]
  rfl

/-- Closed witness for the C2 theorem at a concrete adapter, objective,
solver and initial point. -/
theorem optimize_internal_approx_when_no_batch_witness :
    Optimizer.optimize_base 1 none (some [0]) = Except.ok () ∧
    (dflt.optimize okSolver false 1 zeroObj none none (some [0])).2.1 =
      [{ func := zeroObj, x0 := some [0], bounds := none, fprime := none,
         approx_grad := true, kwargs := dflt._options }] :=
  ⟨rfl, optimize_internal_approx_when_no_batch dflt okSolver 1 zeroObj none
    (some [0]) rfl⟩

/-- C3: on every successful call, optimize returns exactly the triple of
the final point of the solver, its final objective value, and the
funcalls field of its diagnostic info. -/
theorem optimize_returns_sol_opt_funcalls (self : L_BFGS_B)
    (solver : Solver) (bm : Bool) (n : Nat) (f : ObjFun)
    (gf : Option GradFun) (vb : Option Bounds) (x0 : Option Point)
    (sol : Point) (opt : ℚ) (info : SolverInfo)
    (h : Optimizer.optimize_base n vb x0 = Except.ok ())
    (hs : solver (self.solverCall bm f gf vb x0) =
      Except.ok (sol, opt, info)) :
    (self.optimize solver bm n f gf vb x0).1 =
      Except.ok (sol, opt, info.funcalls) := by
  simp [L_BFGS_B.optimize, h, hs]

/-- Closed witness for the C3 theorem at a concrete adapter, objective,
solver and initial point. -/
theorem optimize_returns_sol_opt_funcalls_witness :
    Optimizer.optimize_base 1 none (some [0]) = Except.ok () ∧
    (dflt.optimize okSolver false 1 zeroObj (some id) none (some [0])).1 =
      Except.ok ([0], 0, 7) :=
  ⟨rfl, optimize_returns_sol_opt_funcalls dflt okSolver false 1 zeroObj
    (some id) none (some [0]) [0] 0 ⟨[0], "done", 7, 2, 0⟩ rfl rfl⟩

/-- C7: an error of the request-shape validation of the base collaborator
propagates unchanged, before any solver invocation and with the stored
configuration unchanged; an error of the external solver also propagates
unchanged, with the stored configuration unchanged. -/
theorem optimize_propagates_errors (self : L_BFGS_B) (solver : Solver)
    (bm : Bool) (n : Nat) (f : ObjFun) (gf : Option GradFun)
    (vb : Option Bounds) (x0 : Option Point) :
    (∀ e, Optimizer.optimize_base n vb x0 = Except.error e →
      self.optimize solver bm n f gf vb x0 = (Except.error e, [], self)) ∧
    (∀ e, Optimizer.optimize_base n vb x0 = Except.ok () →
      solver (self.solverCall bm f gf vb x0) = Except.error e →
      self.optimize solver bm n f gf vb x0 =
        (Except.error e, [self.solverCall bm f gf vb x0], self)) := by
  constructor
  · intro e h
    unfold L_BFGS_B.optimize
    rw [h]
  · intro e h hs
    simp [L_BFGS_B.optimize, h, hs]

/-- Closed witness for the C7 theorem: a missing initial point aborts
with the invalid-request error and an empty invocation list, and a
failing solver propagates its error. -/
theorem optimize_propagates_errors_witness :
    dflt.optimize failSolver false 1 zeroObj none none none =
      (Except.error "initial point is required for this optimizer", [], dflt) ∧
    dflt.optimize failSolver false 1 zeroObj none none (some [0]) =
      (Except.error "numerical failure",
       [dflt.solverCall false zeroObj none none (some [0])], dflt) :=
  ⟨(optimize_propagates_errors dflt failSolver false 1 zeroObj none none
      none).1 "initial point is required for this optimizer" rfl,
   (optimize_propagates_errors dflt failSolver false 1 zeroObj none none
      (some [0])).2 "numerical failure" rfl rfl⟩

/-- C8: optimize leaves the adapter state, in particular the stored
option set, unchanged, and a second call on the resulting state with
identical inputs returns the identical result. -/
theorem optimize_stateless_idempotent (self : L_BFGS_B) (solver : Solver)
    (bm : Bool) (n : Nat) (f : ObjFun) (gf : Option GradFun)
    (vb : Option Bounds) (x0 : Option Point) :
    (self.optimize solver bm n f gf vb x0).2.2 = self ∧
    ((self.optimize solver bm n f gf vb x0).2.2).optimize solver bm n f gf
        vb x0 =
      self.optimize solver bm n f gf vb x0 := by
  have h : (self.optimize solver bm n f gf vb x0).2.2 = self := by
    cases h0 : Optimizer.optimize_base n vb x0 with
    | error e => simp [L_BFGS_B.optimize, h0]
    | ok u =>
      cases hs : solver (self.solverCall bm f gf vb x0) with
      | error e => simp [L_BFGS_B.optimize, h0, hs]
      | ok r =>
        obtain ⟨sol, opt, info⟩ := r
        simp [L_BFGS_B.optimize, h0, hs]
  exact ⟨h, by rw [h]⟩

/-- C9: under a successfully constructed configuration, optimize passes
the solver the objective, the initial point, the bounds and, as keyword
tuning parameters, exactly the five options with the values given at
construction, in a single solver invocation. -/
theorem optimize_passes_configured_options (mf mi fa ip : Int) (ep : ℚ)
    (self : L_BFGS_B)
    (hinit : L_BFGS_B.init (PyVal.int mf) (PyVal.int mi) (PyVal.int fa)
      (PyVal.int ip) (PyVal.float ep) = some self)
    (solver : Solver) (bm : Bool) (n : Nat) (f : ObjFun)
    (gf : Option GradFun) (vb : Option Bounds) (x0 : Option Point)
    (h : Optimizer.optimize_base n vb x0 = Except.ok ()) :
    (self.optimize solver bm n f gf vb x0).2.1 =
      [self.solverCall bm f gf vb x0] ∧
    (self.solverCall bm f gf vb x0).func = f ∧
    (self.solverCall bm f gf vb x0).x0 = x0 ∧
    (self.solverCall bm f gf vb x0).bounds = vb ∧
    (self.solverCall bm f gf vb x0).kwargs =
      [("maxfun", PyVal.int mf), ("maxiter", PyVal.int mi),
       ("factr", PyVal.int fa), ("iprint", PyVal.int ip),
       ("epsilon", PyVal.float ep)] := by
  have hred : L_BFGS_B.init (PyVal.int mf) (PyVal.int mi) (PyVal.int fa)
      (PyVal.int ip) (PyVal.float ep) =
      some ⟨[("maxfun", PyVal.int mf), ("maxiter", PyVal.int mi),
             ("factr", PyVal.int fa), ("iprint", PyVal.int ip),
             ("epsilon", PyVal.float ep)]⟩ := rfl
  rw [hred] at hinit
  obtain rfl := Option.some.inj hinit
  exact ⟨optimize_calls_of_valid _ solver bm n f gf vb x0 h,
    rfl, rfl, rfl, rfl⟩

/-- Closed witness for the C9 theorem at the default construction values
and a concrete request. -/
theorem optimize_passes_configured_options_witness :
    L_BFGS_B.init (PyVal.int 1000) (PyVal.int 15000) (PyVal.int 10)
      (PyVal.int (-1)) (PyVal.float (1 / 100000000)) = some dflt ∧
    Optimizer.optimize_base 1 none (some [0]) = Except.ok () ∧
    ((dflt.optimize okSolver true 1 zeroObj none none (some [0])).2.1 =
      [dflt.solverCall true zeroObj none none (some [0])] ∧
    (dflt.solverCall true zeroObj none none (some [0])).func = zeroObj ∧
    (dflt.solverCall true zeroObj none none (some [0])).x0 = some [0] ∧
    (dflt.solverCall true zeroObj none none (some [0])).bounds = none ∧
    (dflt.solverCall true zeroObj none none (some [0])).kwargs =
      [("maxfun", PyVal.int 1000), ("maxiter", PyVal.int 15000),
       ("factr", PyVal.int 10), ("iprint", PyVal.int (-1)),
       ("epsilon", PyVal.float (1 / 100000000))]) :=
  ⟨rfl, rfl, optimize_passes_configured_options 1000 15000 10 (-1)
    (1 / 100000000) dflt rfl okSolver true 1 zeroObj none none
    (some [0]) rfl⟩

/-- C10: in every solver invocation made by optimize, the approx_grad
flag is set exactly when the fprime argument is absent, over all four
combinations of a caller-supplied gradient and batch-mode
availability. -/
theorem optimize_approx_grad_iff_no_fprime (self : L_BFGS_B)
    (solver : Solver) (bm : Bool) (n : Nat) (f : ObjFun)
    (gf : Option GradFun) (vb : Option Bounds) (x0 : Option Point) :
    ((self.optimize solver bm n f gf vb x0).2.1).all
      (fun c => c.approx_grad == c.fprime.isNone) = true := by
  cases h0 : Optimizer.optimize_base n vb x0 with
  | error e => simp [L_BFGS_B.optimize, h0]
  | ok u =>
    obtain ⟨⟩ := u
    rw [optimize_calls_of_valid self solver bm n f gf vb x0 h0]
    simp [List.all_cons, List.all_nil, solverCall_approx_eq]
